import Mathlib

/-!
Shallow embedding of `src/curl_stream.c` (libgit2's curl-backed stream).

The external collaborators (the curl library's `perform` / `getinfo` /
`send` / `recv` primitives and the OS `select` call) are modelled as
oracles: each stream operation takes a trace of the environment's
responses, one entry per loop iteration, and the embedding replays the C
control flow over that trace.  A loop whose trace runs out yields `none`
(the C loop would still be running); every theorem about loop results is
therefore stated on `some` outcomes.
-/

/-- Result codes of the external curl primitives.  Only the codes the C file
inspects by name are distinguished; every other code is `other n`.  The
library's `CURLE_BAD_FUNCTION_ARGUMENT` (returned when a primitive is handed
a null handle) is represented as `other 43`, its numeric value. -/
inductive CURLcode where
  | ok
  | again
  | peerFailedVerification
  | other (n : Nat)
  deriving DecidableEq, Repr

/-- Error classes passed to `giterr_set` by the C file. -/
inductive GitErrorClass where
  | net
  | os
  deriving DecidableEq, Repr

/-- Certificate type tags (`git_cert_t`).  `noCert` is the zero value a
freshly calloc-ed record carries; `x509` is `GIT_CERT_X509`. -/
inductive GitCertType where
  | noCert
  | x509
  deriving DecidableEq, Repr

/-- `git_cert_x509`: a type tag plus a pointer/length pair.  The data
pointer is `Option (List Nat)`, `none` standing for the null pointer. -/
structure git_cert_x509 where
  cert_type : GitCertType
  data : Option (List Nat)
  len : Nat
  deriving DecidableEq, Repr

/-- The `curl_stream` struct: the `git_stream parent`'s `encrypted` flag,
the owned curl handle (`none` = null), the extracted raw socket, the curl
error buffer and the lazily filled certificate record. -/
structure curl_stream where
  encrypted : Bool
  handle : Option Unit
  socket : Int
  curl_error : String
  cert_info : git_cert_x509
  deriving DecidableEq, Repr

/-- Modelled from the spec: the dedicated certificate-error return code of
`connect`, distinct from the generic failure code `-1`; the public error
enumeration (`git2/errors.h`) is not under `src/`.  Its value there is
`-17`. -/
def GIT_ECERTIFICATE : Int := -17

/-- Environment responses consumed by one call to `curls_connect`:
the result of `curl_easy_perform`, the result of
`curl_easy_getinfo(CURLINFO_LASTSOCKET)` and the socket value it reports. -/
structure ConnectOracle where
  performRes : CURLcode
  getinfoRes : CURLcode
  lastSocket : Int
  deriving DecidableEq, Repr

/-- The three distinct outcomes of `curls_connect`: `0`, `-1` with a net
error (`seterr_curl`), or `GIT_ECERTIFICATE`. -/
inductive ConnectResult where
  | ok
  | netError
  | certError
  deriving DecidableEq, Repr

/-- The integer actually returned by the C function for each outcome. -/
def ConnectResult.toInt : ConnectResult → Int
  | .ok => 0
  | .netError => -1
  | .certError => GIT_ECERTIFICATE

/-- `curls_connect`: run `curl_easy_perform`; any code other than `OK` or
`PEER_FAILED_VERIFICATION` is a net error; a verification failure sets
`failed_cert` without failing yet; then `curl_easy_getinfo(LASTSOCKET)`
must succeed (else net error) and its socket is stored; finally an
encrypted stream with `failed_cert` returns `GIT_ECERTIFICATE`, otherwise
`0`. -/
def curls_connect (s : curl_stream) (o : ConnectOracle) : ConnectResult × curl_stream :=
  let res := o.performRes
  if res ≠ CURLcode.ok ∧ res ≠ CURLcode.peerFailedVerification then
    (ConnectResult.netError, s)
  else
    let failed_cert := res = CURLcode.peerFailedVerification
    if o.getinfoRes ≠ CURLcode.ok then
      (ConnectResult.netError, s)
    else
      let s1 := { s with socket := o.lastSocket }
      if s1.encrypted ∧ failed_cert then
        (ConnectResult.certError, s1)
      else
        (ConnectResult.ok, s1)

/-- `curls_certificate`: fill the stream's `cert_info` with the X509 tag, a
null data pointer and zero length, point `*out` at it, return `0`. -/
def curls_certificate (s : curl_stream) : Int × git_cert_x509 × curl_stream :=
  let s1 := { s with cert_info := ⟨GitCertType.x509, none, 0⟩ }
  (0, s1.cert_info, s1)

/-- One loop iteration's environment response inside `curls_write`:
either the `select` inside `wait_for` fails (`selectErr`), or the wait
succeeds and `curl_easy_send` reports `(res, sent)`. -/
inductive WriteStep where
  | selectErr
  | send (res : CURLcode) (sent : Nat)
  deriving DecidableEq, Repr

/-- One loop iteration's environment response inside `curls_read`:
either `select` fails, or the wait succeeds and `curl_easy_recv` reports
`(res, n)` with `n` bytes received. -/
inductive ReadStep where
  | selectErr
  | recv (res : CURLcode) (n : Nat)
  deriving DecidableEq, Repr

/-- Outcomes of `curls_write` / `curls_read`: `-1` with an OS error (from
`wait_for`), `-1` with a net error (`seterr_curl`), or a byte count. -/
inductive RWResult where
  | osError
  | netError
  | success (n : Nat)
  deriving DecidableEq, Repr

/-- The `ssize_t` the C function returns for each outcome. -/
def RWResult.toInt : RWResult → Int
  | .osError => -1
  | .netError => -1
  | .success n => n

/-- The error class `giterr_set` was called with, if any. -/
def RWResult.errClass : RWResult → Option GitErrorClass
  | .osError => some GitErrorClass.os
  | .netError => some GitErrorClass.net
  | .success _ => none

/-- The external send/recv primitive's contract: handed a null handle the
curl library rejects the call with `CURLE_BAD_FUNCTION_ARGUMENT` (code 43)
before touching the handle; on a live handle the outcome is whatever the
environment oracle says. -/
def curl_easy_io_model (handle : Option Unit) (oracle : CURLcode × Nat) : CURLcode × Nat :=
  match handle with
  | none => (CURLcode.other 43, 0)
  | some _ => oracle

/-- The do-while loop of `curls_write`: each iteration first waits
(`wait_for`; a failed `select` returns the error at once), then sends the
remaining bytes; on `CURLE_OK` the offset advances by the bytes sent; the
loop continues while the code is `OK` or `AGAIN` and the offset is short of
`len`; on exit a non-`OK` code is a net error, otherwise the full `len` is
returned. -/
def curls_write_loop (handle : Option Unit) (len : Nat) :
    Nat → List WriteStep → Option RWResult
  | _, [] => none
  | _, WriteStep.selectErr :: _ => some RWResult.osError
  | off, WriteStep.send r n :: rest =>
    let rn := curl_easy_io_model handle (r, n)
    let off1 := if rn.1 = CURLcode.ok then off + rn.2 else off
    if (rn.1 = CURLcode.ok ∨ rn.1 = CURLcode.again) ∧ off1 < len then
      curls_write_loop handle len off1 rest
    else if rn.1 = CURLcode.ok then
      some (RWResult.success len)
    else
      some RWResult.netError

/-- `curls_write`: `flags` is explicitly unused (`GIT_UNUSED(flags)`), the
loop starts at offset `0`, and the stream itself is never written to. -/
def curls_write (s : curl_stream) (data : List Nat) (len : Nat) (flags : Int)
    (trace : List WriteStep) : Option RWResult × curl_stream :=
  (curls_write_loop s.handle len 0 trace, s)

/-- The do-while loop of `curls_read`: wait for readability (a failed
`select` returns the error at once), then `curl_easy_recv`; retry only on
`CURLE_AGAIN`; on exit a non-`OK` code is a net error, otherwise the byte
count of the last receive is returned. -/
def curls_read_loop (handle : Option Unit) : List ReadStep → Option RWResult
  | [] => none
  | ReadStep.selectErr :: _ => some RWResult.osError
  | ReadStep.recv r n :: rest =>
    let rn := curl_easy_io_model handle (r, n)
    if rn.1 = CURLcode.again then
      curls_read_loop handle rest
    else if rn.1 = CURLcode.ok then
      some (RWResult.success rn.2)
    else
      some RWResult.netError

/-- `curls_read`: the stream itself is never written to. -/
def curls_read (s : curl_stream) (len : Nat) (trace : List ReadStep) :
    Option RWResult × curl_stream :=
  (curls_read_loop s.handle trace, s)

/-- `curls_close`: a null handle returns `0` at once; otherwise the handle
is released and nulled and the socket reset to `0`, returning `0`. -/
def curls_close (s : curl_stream) : Int × curl_stream :=
  match s.handle with
  | none => (0, s)
  | some _ => (0, { s with handle := none, socket := 0 })

/-- Observable milestones of `git_curl_stream_new`, in order of
occurrence. -/
inductive FactoryEvent where
  | createHandle
  | configureHandle
  | exposeStream
  deriving DecidableEq, Repr

/-- Failure modes of the factory that the claims distinguish. -/
inductive FactoryError where
  | handleInitFailed
  | portParseError
  deriving DecidableEq, Repr

/-- Modelled from the spec: the repository's base-10 string-to-int helper
(`git__strtol32`) is not under `src/`; per the spec the port is a textual
value "parsed as base-10 integer; parse failure is a propagated error".
A nonempty all-digit string parses, anything else fails. -/
def git_strtol32_model (str : String) : Option Int :=
  if str.length ≠ 0 ∧ str.data.all Char.isDigit then
    some (Int.ofNat (str.data.foldl (fun a c => a * 10 + (c.toNat - 48)) 0))
  else
    none

/-- `git_curl_stream_new`: allocate the zeroed stream, call
`curl_easy_init` (failure: net error before any handle exists), then parse
the port — a parse failure is returned at that point, after the handle was
created but before any option is set on it and before the stream is
exposed; otherwise configure the handle and expose the stream.  `initOk`
stands for whether `curl_easy_init` returns a handle.  The event list
records which milestones were reached. -/
def git_curl_stream_new (host port : String) (encrypted : Bool) (initOk : Bool) :
    Except FactoryError curl_stream × List FactoryEvent :=
  if !initOk then
    (Except.error FactoryError.handleInitFailed, [])
  else
    match git_strtol32_model port with
    | none => (Except.error FactoryError.portParseError, [FactoryEvent.createHandle])
    | some _ =>
      (Except.ok
        { encrypted := encrypted
          handle := some ()
          socket := 0
          curl_error := ""
          cert_info := ⟨GitCertType.noCert, none, 0⟩ },
       [FactoryEvent.createHandle, FactoryEvent.configureHandle, FactoryEvent.exposeStream])

/-! ## Helper lemmas shared across claims -/

/-- Every `some` outcome of the write loop is one of the three `RWResult`
shapes, and a `success` carries exactly `len`. -/
theorem write_loop_result (handle : Option Unit) (len : Nat) :
    ∀ (trace : List WriteStep) (off : Nat) (r : RWResult),
      curls_write_loop handle len off trace = some r →
      r = RWResult.netError ∨ r = RWResult.osError ∨ r = RWResult.success len := by
  intro trace
  induction trace with
  | nil =>
    intro off r h
    simp [curls_write_loop] at h
  | cons step rest ih =>
    intro off r h
    cases step with
    | selectErr =>
      simp [curls_write_loop] at h
      exact Or.inr (Or.inl h.symm)
    | send cres n =>
      rw [curls_write_loop] at h
      repeat' split at h
      all_goals first
        | exact ih _ r h
        | (simp only [Option.some.injEq] at h
           exact Or.inr (Or.inr h.symm))
        | (simp only [Option.some.injEq] at h
           exact Or.inl h.symm)

/-- Leading would-block receives are skipped by the read loop. -/
theorem read_loop_skips_again (agains : List Nat) (rest : List ReadStep) :
    curls_read_loop (some ()) ((agains.map fun m => ReadStep.recv CURLcode.again m) ++ rest) =
      curls_read_loop (some ()) rest := by
  induction agains with
  | nil => rfl
  | cons a as ih =>
    simpa [curls_read_loop, curl_easy_io_model] using ih

/-! ## Claim theorems -/

/-- C2: for every `write` call with requested length `len`, whatever
chunking and would-block interleaving the transport produces, a completed
call returns either a net error, an OS error from the readiness wait, or
exactly `len` — never a success count different from `len` (in particular
never one strictly between `0` and `len`). -/
theorem c2_write_full_or_error (s : curl_stream) (data : List Nat) (len : Nat)
    (flags : Int) (trace : List WriteStep) (r : RWResult)
    (h : (curls_write s data len flags trace).1 = some r) :
    r = RWResult.netError ∨ r = RWResult.osError ∨ r = RWResult.success len :=
  write_loop_result s.handle len trace 0 r h

/-- Concrete run for C2: five bytes sent as a 3-byte chunk, a would-block,
then a 2-byte chunk; write reports the full length 5. -/
def c2_s : curl_stream :=
  { encrypted := false, handle := some (), socket := 7, curl_error := "",
    cert_info := ⟨GitCertType.noCert, none, 0⟩ }

/-- Trace for the C2 witness. -/
def c2_trace : List WriteStep :=
  [WriteStep.send CURLcode.ok 3, WriteStep.send CURLcode.again 0,
   WriteStep.send CURLcode.ok 2]

/-- Witness for C2 at a concrete chunked trace. -/
theorem c2_witness :
    RWResult.success 5 = RWResult.netError ∨ RWResult.success 5 = RWResult.osError ∨
      RWResult.success 5 = RWResult.success 5 :=
  c2_write_full_or_error c2_s [1, 2, 3, 4, 5] 5 0 c2_trace (RWResult.success 5) (by decide)

/-- C3: on a live stream, leading would-block receives are retried
internally without returning to the caller; the first receive that
returns `CURLE_OK` with `n` bytes (`n ≤ len`, including `n = 0` for EOF)
ends the call with success `n`; a first non-`OK`, non-`AGAIN` code is a
hard net-error failure. -/
theorem c3_read_retry_then_first_success (s : curl_stream) (len : Nat)
    (agains : List Nat) (n : Nat) (rest : List ReadStep)
    (hs : s.handle = some ()) (hn : n ≤ len) :
    (curls_read s len ((agains.map fun m => ReadStep.recv CURLcode.again m) ++
        ReadStep.recv CURLcode.ok n :: rest)).1 = some (RWResult.success n) ∧
    (∀ res m, res ≠ CURLcode.ok → res ≠ CURLcode.again →
      (curls_read s len ((agains.map fun m2 => ReadStep.recv CURLcode.again m2) ++
          ReadStep.recv res m :: rest)).1 = some RWResult.netError) := by
  constructor
  · simp only [curls_read, hs, read_loop_skips_again]
    simp [curls_read_loop, curl_easy_io_model]
  · intro res m h1 h2
    simp only [curls_read, hs, read_loop_skips_again]
    simp [curls_read_loop, curl_easy_io_model, h1, h2]

/-- Concrete stream for the C3 witness. -/
def c3_s : curl_stream :=
  { encrypted := true, handle := some (), socket := 4, curl_error := "",
    cert_info := ⟨GitCertType.noCert, none, 0⟩ }

/-- Witness for C3: two would-blocks then a 0-byte (EOF) receive on a
16-byte request returns success 0. -/
theorem c3_witness :
    (curls_read c3_s 16 (([0, 0].map fun m => ReadStep.recv CURLcode.again m) ++
        ReadStep.recv CURLcode.ok 0 :: [])).1 = some (RWResult.success 0) :=
  (c3_read_retry_then_first_success c3_s 16 [0, 0] 0 [] rfl (by decide)).1

/-- C4: `certificate` always succeeds with return code 0 and hands back the
stream's record tagged X.509 with a null data pointer and zero length —
for every stream state, hence also right after a connect attempt whose
peer verification failed. -/
theorem c4_certificate_always_x509_empty (s : curl_stream) :
    (curls_certificate s).1 = 0 ∧
    (curls_certificate s).2.1 = ⟨GitCertType.x509, none, 0⟩ ∧
    ((curls_certificate s).2.2).cert_info = (curls_certificate s).2.1 := by
  refine ⟨rfl, rfl, rfl⟩

/-- C5: `close` on an already-closed stream (null handle) returns 0 and
leaves the state unchanged; `close` twice returns 0 both times; a first
close on a connected stream nulls the handle and resets the socket
together. -/
theorem c5_close_idempotent (s : curl_stream) :
    (s.handle = none → curls_close s = (0, s)) ∧
    (curls_close s).1 = 0 ∧
    (curls_close (curls_close s).2).1 = 0 ∧
    curls_close (curls_close s).2 = (0, (curls_close s).2) ∧
    (s.handle ≠ none →
      ((curls_close s).2.handle = none ∧ (curls_close s).2.socket = 0)) := by
  cases hh : s.handle with
  | none => simp [curls_close, hh]
  | some u => simp [curls_close, hh]

/-- Concrete already-closed stream for the C5 witness. -/
def c5_s : curl_stream :=
  { encrypted := false, handle := none, socket := 0, curl_error := "",
    cert_info := ⟨GitCertType.noCert, none, 0⟩ }

/-- Witness for C5: close on a stream whose handle is already null returns
0 and leaves it unchanged. -/
theorem c5_witness : curls_close c5_s = (0, c5_s) :=
  (c5_close_idempotent c5_s).1 rfl

/-- C9: if the readiness wait's `select` fails, that read or write attempt
returns immediately with the OS error — the result does not depend on the
rest of the trace, so the non-blocking send/receive of that iteration is
never consulted — and the OS-error outcome is a negative return with the
OS error class set. -/
theorem c9_select_failure_is_fatal (s : curl_stream) (data : List Nat)
    (len : Nat) (flags : Int) (wrest : List WriteStep) (rrest : List ReadStep) :
    (curls_write s data len flags (WriteStep.selectErr :: wrest)).1 =
      some RWResult.osError ∧
    (curls_read s len (ReadStep.selectErr :: rrest)).1 = some RWResult.osError ∧
    RWResult.toInt RWResult.osError = -1 ∧
    RWResult.errClass RWResult.osError = some GitErrorClass.os := by
  refine ⟨?_, ?_, rfl, rfl⟩
  · simp [curls_write, curls_write_loop]
  · simp [curls_read, curls_read_loop]

/-- C10: the `flags` argument of `write` is ignored: with identical stream,
buffer, length and transport trace, two calls with different flags return
the same result and leave the stream in the same state. -/
theorem c10_write_ignores_flags (s : curl_stream) (data : List Nat) (len : Nat)
    (f1 f2 : Int) (trace : List WriteStep) :
    curls_write s data len f1 trace = curls_write s data len f2 trace := rfl

/-- Encrypted stream for the C1 counterexample. -/
def c1_s : curl_stream :=
  { encrypted := true, handle := some (), socket := 0, curl_error := "",
    cert_info := ⟨GitCertType.noCert, none, 0⟩ }

/-- Oracle for the C1 counterexample: perform reports exactly the peer
verification failure, but the socket extraction fails. -/
def c1_o : ConnectOracle :=
  { performRes := CURLcode.peerFailedVerification,
    getinfoRes := CURLcode.other 7, lastSocket := 9 }

/-- C1 counterexample: on an encrypted stream whose perform step returns
exactly the peer-verification-failure code, connect does NOT return the
certificate error when the subsequent socket extraction fails — it
returns the generic net error, refuting the claim as stated. -/
theorem c1_counterexample :
    c1_o.performRes = CURLcode.peerFailedVerification ∧
    c1_s.encrypted = true ∧
    (curls_connect c1_s c1_o).1 ≠ ConnectResult.certError ∧
    (curls_connect c1_s c1_o).1 = ConnectResult.netError := by decide

/-- C1 (amended): any perform code other than OK and peer-verification
failure makes connect fail with the generic net error; and — provided the
subsequent socket extraction succeeds — a peer-verification failure on an
encrypted stream yields the dedicated certificate error (whose return
value is distinct from the net error's), while on a non-encrypted stream
it is ignored and connect succeeds. -/
theorem c1_connect_error_dispatch (s : curl_stream) (o : ConnectOracle) :
    (o.performRes ≠ CURLcode.ok → o.performRes ≠ CURLcode.peerFailedVerification →
      (curls_connect s o).1 = ConnectResult.netError) ∧
    (o.getinfoRes = CURLcode.ok → o.performRes = CURLcode.peerFailedVerification →
      s.encrypted = true → (curls_connect s o).1 = ConnectResult.certError) ∧
    (o.getinfoRes = CURLcode.ok → o.performRes = CURLcode.peerFailedVerification →
      s.encrypted = false → (curls_connect s o).1 = ConnectResult.ok) ∧
    ConnectResult.toInt ConnectResult.certError ≠
      ConnectResult.toInt ConnectResult.netError := by
  refine ⟨?_, ?_, ?_, by decide⟩
  · intro h1 h2
    simp [curls_connect, h1, h2]
  · intro hg hp he
    simp [curls_connect, hg, hp, he]
  · intro hg hp he
    simp [curls_connect, hg, hp, he]

/-- Stream for the C1 witness (encrypted, live handle). -/
def c1w_s : curl_stream :=
  { encrypted := true, handle := some (), socket := 0, curl_error := "",
    cert_info := ⟨GitCertType.noCert, none, 0⟩ }

/-- Oracle for the C1 witness: verification failed, extraction succeeds. -/
def c1w_o : ConnectOracle :=
  { performRes := CURLcode.peerFailedVerification,
    getinfoRes := CURLcode.ok, lastSocket := 11 }

/-- Witness for the amended C1: encrypted stream, verification failure,
successful extraction — connect returns the certificate error. -/
theorem c1_witness : (curls_connect c1w_s c1w_o).1 = ConnectResult.certError :=
  (c1_connect_error_dispatch c1w_s c1w_o).2.1 rfl rfl rfl

/-- C6 counterexample: with the malformed port "abc" the factory does fail
with the parse error, but the external transport handle has already been
created at that point, refuting "before any network handle is created". -/
theorem c6_counterexample :
    (git_curl_stream_new "example.org" "abc" true true).1 =
      Except.error FactoryError.portParseError ∧
    FactoryEvent.createHandle ∈ (git_curl_stream_new "example.org" "abc" true true).2 := by
  constructor
  · rfl
  · simp [git_curl_stream_new, git_strtol32_model]

/-- C6 (amended): a malformed port string makes the factory fail with the
propagated parse error, after the external transport handle has been
created but before the handle is configured and before any stream is
exposed to the caller. -/
theorem c6_factory_parse_error (host port : String) (encrypted : Bool)
    (hp : git_strtol32_model port = none) :
    git_curl_stream_new host port encrypted true =
      (Except.error FactoryError.portParseError, [FactoryEvent.createHandle]) := by
  simp [git_curl_stream_new, hp]

/-- Witness for the amended C6 at the concrete port "abc". -/
theorem c6_witness :
    git_curl_stream_new "example.org" "abc" true true =
      (Except.error FactoryError.portParseError, [FactoryEvent.createHandle]) :=
  c6_factory_parse_error "example.org" "abc" true (by decide)

/-- C7: on a stream whose handle is already null (after close), any read
or write attempt whose loop runs at least one iteration ends in an error
(the external primitive rejects the null handle, or the readiness wait
fails first) — never in a success — and both error outcomes are negative
returns. -/
theorem c7_closed_stream_rejected (s : curl_stream) (data : List Nat)
    (len : Nat) (flags : Int) (wstep : WriteStep) (wrest : List WriteStep)
    (rstep : ReadStep) (rrest : List ReadStep) (hs : s.handle = none) :
    ((curls_write s data len flags (wstep :: wrest)).1 = some RWResult.netError ∨
      (curls_write s data len flags (wstep :: wrest)).1 = some RWResult.osError) ∧
    ((curls_read s len (rstep :: rrest)).1 = some RWResult.netError ∨
      (curls_read s len (rstep :: rrest)).1 = some RWResult.osError) ∧
    RWResult.toInt RWResult.netError = -1 ∧
    RWResult.toInt RWResult.osError = -1 := by
  refine ⟨?_, ?_, rfl, rfl⟩
  · cases wstep with
    | selectErr => right; simp [curls_write, curls_write_loop]
    | send r n => left; simp [curls_write, curls_write_loop, curl_easy_io_model, hs]
  · cases rstep with
    | selectErr => right; simp [curls_read, curls_read_loop]
    | recv r n => left; simp [curls_read, curls_read_loop, curl_easy_io_model, hs]

/-- Closed stream for the C7 witness. -/
def c7_s : curl_stream :=
  { encrypted := true, handle := none, socket := 0, curl_error := "",
    cert_info := ⟨GitCertType.noCert, none, 0⟩ }

/-- Witness for C7: a write and a read on the closed stream, each given a
transport that would happily report success, still end in an error. -/
theorem c7_witness :
    ((curls_write c7_s [1] 1 0 [WriteStep.send CURLcode.ok 1]).1 =
        some RWResult.netError ∨
      (curls_write c7_s [1] 1 0 [WriteStep.send CURLcode.ok 1]).1 =
        some RWResult.osError) ∧
    ((curls_read c7_s 1 [ReadStep.recv CURLcode.ok 1]).1 = some RWResult.netError ∨
      (curls_read c7_s 1 [ReadStep.recv CURLcode.ok 1]).1 = some RWResult.osError) :=
  ⟨(c7_closed_stream_rejected c7_s [1] 1 0 (WriteStep.send CURLcode.ok 1) []
      (ReadStep.recv CURLcode.ok 1) [] rfl).1,
   (c7_closed_stream_rejected c7_s [1] 1 0 (WriteStep.send CURLcode.ok 1) []
      (ReadStep.recv CURLcode.ok 1) [] rfl).2.1⟩

/-- C8: whenever the perform step does not fail fatally (it returned OK or
the peer-verification failure), a successful extraction stores the
reported socket in the stream before connect returns — also when connect
then returns the certificate error — and a failed extraction makes
connect fail with the generic net error even when the only prior problem
was the verification failure. -/
theorem c8_socket_extraction (s : curl_stream) (o : ConnectOracle)
    (hp : o.performRes = CURLcode.ok ∨ o.performRes = CURLcode.peerFailedVerification) :
    (o.getinfoRes = CURLcode.ok → (curls_connect s o).2.socket = o.lastSocket) ∧
    (o.getinfoRes = CURLcode.ok → (curls_connect s o).1 = ConnectResult.certError →
      (curls_connect s o).2.socket = o.lastSocket) ∧
    (o.getinfoRes ≠ CURLcode.ok →
      (curls_connect s o).1 = ConnectResult.netError) := by
  have hfirst : ¬(o.performRes ≠ CURLcode.ok ∧
      o.performRes ≠ CURLcode.peerFailedVerification) := by
    rcases hp with h | h <;> simp [h]
  refine ⟨?_, ?_, ?_⟩
  · intro hg
    simp only [curls_connect, if_neg hfirst, hg]
    split
    · exact absurd rfl (by assumption)
    · split <;> rfl
  · intro hg _
    simp only [curls_connect, if_neg hfirst, hg]
    split
    · exact absurd rfl (by assumption)
    · split <;> rfl
  · intro hg
    simp [curls_connect, if_neg hfirst, hg]

/-- Stream for the C8 witness (encrypted, so the certificate-error path is
exercised). -/
def c8_s : curl_stream :=
  { encrypted := true, handle := some (), socket := 0, curl_error := "",
    cert_info := ⟨GitCertType.noCert, none, 0⟩ }

/-- Oracle for the C8 witness: verification failed, extraction reports
socket 42. -/
def c8_o : ConnectOracle :=
  { performRes := CURLcode.peerFailedVerification,
    getinfoRes := CURLcode.ok, lastSocket := 42 }

/-- Witness for C8: after a cert-failed but extracted connect, the socket
42 is stored in the stream. -/
theorem c8_witness : (curls_connect c8_s c8_o).2.socket = c8_o.lastSocket :=
  (c8_socket_extraction c8_s c8_o (Or.inr rfl)).1 rfl
